import Mathlib

/-!
# web-bd: health-check web application (`index.js`)

A shallow embedding of the request handlers of `index.js` and the properties
of its authentication flow and of its two health classifiers.

Conventions of the embedding.

* JavaScript numbers received in a form body are finite numbers; they are
  modelled as exact rationals (`ℚ`).  The comparisons of the classifiers are
  exact on such values.  The arithmetic of the BMI (`/`, `*`) is modelled as
  exact rational arithmetic: the rounding error of IEEE-754 doubles is not
  part of the model.  The non-finite results of a division by zero
  (`Infinity`, `-Infinity`, `NaN`) are kept, see `JsNum`.
* The libraries the handlers call (express-validator / validator.js, bcrypt)
  are parameters, see `Lib`; the database reached through `db.query` is a
  parameter as well, see `Store`.
* A handler is a function from the request body, the session and the store
  state to an `Outcome`: the response, the session and store state afterwards,
  the library and store calls it made, what it wrote with `console.error`, and
  the error (if any) thrown out of a query callback.
-/

namespace WebBd

/-! ## Numbers -/

/-- Value of a JavaScript arithmetic expression: a finite number, one of the
two infinities, or `NaN`. -/
inductive JsNum where
  | fin (q : ℚ)
  | posInf
  | negInf
  | nan
  deriving DecidableEq

/-- JavaScript `a / b` for finite `a` and a finite `b` that is not negative
zero: a zero divisor gives an infinity with the sign of `a`, or `NaN` for
`0 / 0`. -/
def jsDiv (a b : ℚ) : JsNum :=
  if b = 0 then
    if 0 < a then JsNum.posInf else if a < 0 then JsNum.negInf else JsNum.nan
  else JsNum.fin (a / b)

/-- `Number.prototype.toFixed(2)` on a finite number, read back as a number:
the sign is split off, and the magnitude becomes `n / 100` for the integer `n`
with `n / 100` closest to it, the larger `n` on a tie. -/
def toFixed2Fin (x : ℚ) : ℚ :=
  if x < 0 then -(((⌊(-x) * 100 + 1 / 2⌋ : ℤ) : ℚ) / 100)
  else ((⌊x * 100 + 1 / 2⌋ : ℤ) : ℚ) / 100

/-- `x.toFixed(2)` followed by the string-to-number conversion that the
comparisons `bmi < 18.5` apply: non-finite values print as `Infinity`,
`-Infinity`, `NaN` and convert back to themselves. -/
def toFixed2 : JsNum → JsNum
  | JsNum.fin q => JsNum.fin (toFixed2Fin q)
  | JsNum.posInf => JsNum.posInf
  | JsNum.negInf => JsNum.negInf
  | JsNum.nan => JsNum.nan

/-- JavaScript `x < c` for a finite constant `c`; every comparison with `NaN`
is false. -/
def JsNum.lt (x : JsNum) (c : ℚ) : Bool :=
  match x with
  | JsNum.fin q => decide (q < c)
  | JsNum.posInf => false
  | JsNum.negInf => true
  | JsNum.nan => false

/-! ## Health classifiers -/

/-- Lines 194-195: `heightM = height / 100`,
`bmi = (weight / (heightM * heightM)).toFixed(2)`. -/
def bmiOf (height weight : ℚ) : JsNum :=
  let heightM := height / 100
  toFixed2 (jsDiv weight (heightM * heightM))

/-- Lines 196-200: the weight category of the (already rounded) `bmi`. -/
def weightCategoryOf (bmi : JsNum) : String :=
  if bmi.lt 18.5 then "Underweight"
  else if bmi.lt 25 then "Normal"
  else if bmi.lt 30 then "Overweight"
  else "Obese"

/-- Lines 203-207: the blood pressure category. -/
def bloodCategoryOf (systolic diastolic : ℚ) : String :=
  if decide (systolic < 120) && decide (diastolic < 80) then "Normal"
  else if decide (systolic < 130) && decide (diastolic < 80) then "Elevated"
  else if decide (systolic < 140) || decide (diastolic < 90) then
    "High Blood Pressure Stage 1"
  else "High Blood Pressure Stage 2"

/-- Lines 228-231: the SpO2 category. -/
def spo2CategoryOf (spo2 : ℚ) : String :=
  if spo2 ≥ 95 then "Normal"
  else if spo2 ≥ 90 then "Low (Perlu perhatian)"
  else "Very Low (Segera konsultasi dokter)"

/-! ## Data model -/

/-- A row of the `users` table, as the login query returns it
(`SELECT id, name, email, password FROM users`); `password` is the stored
bcrypt hash. -/
structure User where
  id : Nat
  name : String
  email : String
  password : String
  deriving DecidableEq

/-- The fields of `req.session` the handlers read and write; a field that was
never assigned is `none` (JavaScript `undefined`). -/
structure Session where
  userId : Option Nat
  userName : Option String
  deriving DecidableEq

/-- The session of a request that has not logged in. -/
def Session.empty : Session := ⟨none, none⟩

/-- A row of the `health_data` table; a column left out of the `INSERT` is
`none`. -/
structure HealthRecord where
  name : String
  age : ℚ
  height : Option ℚ
  weight : Option ℚ
  systolic : Option ℚ
  diastolic : Option ℚ
  spo2 : Option ℚ
  deriving DecidableEq

/-- An entry of the `errors` list given to a view.  The entries produced by
`validationResult(req).array()` name the field that failed (`path`); the
entries the handlers build themselves carry a message only. -/
structure ErrorItem where
  msg : String
  path : Option String
  deriving DecidableEq

/-- Locals of the view `result-weight-blood`. -/
structure WeightBloodResult where
  name : String
  bmi : JsNum
  weightCategory : String
  systolic : ℚ
  diastolic : ℚ
  bloodCategory : String
  deriving DecidableEq

/-- Locals of the view `result-spo2`. -/
structure Spo2Result where
  name : String
  spo2 : ℚ
  spo2Category : String
  deriving DecidableEq

/-- What a handler sends back. -/
inductive Response where
  | renderErrors (view : String) (errors : List ErrorItem)
  | renderHome (userName : Option String)
  | renderWeightBlood (r : WeightBloodResult)
  | renderSpo2 (r : Spo2Result)
  | redirect (url : String)
  deriving DecidableEq

/-- The `errors` local of a response, empty when the response has none. -/
def Response.errors : Response → List ErrorItem
  | Response.renderErrors _ errs => errs
  | _ => []

/-- A call a handler makes to bcrypt or to the database. -/
inductive Call where
  | selectUser (email : String)
  | bcryptCompare (password hash : String)
  | bcryptHash (password : String) (rounds : Nat)
  | insertUser (name email hash : String)
  | insertHealth (r : HealthRecord)
  deriving DecidableEq

/-- Everything observable of one handled request. -/
structure Outcome (σ : Type) where
  response : Response
  session : Session
  db : σ
  calls : List Call
  logged : List String
  uncaught : Option String

/-! ## Libraries and database -/

/-- The library functions the handlers rely on: `isEmail` and
`normalizeEmail` of validator.js, `bcrypt.hash` (with the salt it draws made
an explicit argument) and `bcrypt.compare`. -/
structure Lib where
  isEmail : String → Bool
  normalizeEmail : String → String
  hash : String → Nat → Nat → String
  compare : String → String → Bool

/-- The database behind `db.query`: each statement of `index.js` either fails
with an error or returns its rows (a `SELECT`) or the new state (an
`INSERT`). -/
structure Store (σ : Type) where
  selectUsersByEmail : σ → String → Except String (List User)
  insertUser : σ → String → String → String → Except String σ
  insertHealth : σ → HealthRecord → Except String σ

/-- The characters matched by `\s` in a JavaScript regular expression. -/
def isJsSpace (c : Char) : Bool :=
  c.toNat = 9 || c.toNat = 10 || c.toNat = 11 || c.toNat = 12 || c.toNat = 13
    || c.toNat = 32 || c.toNat = 160 || c.toNat = 5760
    || (8192 ≤ c.toNat && c.toNat ≤ 8202)
    || c.toNat = 8232 || c.toNat = 8233 || c.toNat = 8239 || c.toNat = 8287
    || c.toNat = 12288 || c.toNat = 65279

/-- The sanitizer `trim()` of validator.js: leading and trailing whitespace
removed. -/
def trim (s : String) : String :=
  String.mk ((s.toList.dropWhile isJsSpace).reverse.dropWhile isJsSpace).reverse

/-- The validator `isLength` of validator.js, on the number of code points
of the string; `max` may be left out. -/
def isLength (min : Nat) (max : Option Nat) (s : String) : Bool :=
  match max with
  | some m => decide (min ≤ s.length) && decide (s.length ≤ m)
  | none => decide (min ≤ s.length)

/-! ## Request bodies -/

/-- Body of `POST /login`. -/
structure LoginBody where
  email : String
  password : String

/-- Body of `POST /register`. -/
structure RegisterBody where
  name : String
  email : String
  password : String
  confirm_password : String

/-- Body of `POST /check-weight-blood`, its numeric fields as numbers. -/
structure WeightBloodBody where
  name : String
  age : ℚ
  height : ℚ
  weight : ℚ
  systolic : ℚ
  diastolic : ℚ

/-- Body of `POST /check-spo2`, its numeric fields as numbers. -/
structure Spo2Body where
  name : String
  age : ℚ
  spo2 : ℚ

/-! ## Validation chains -/

/-- An entry of `validationResult(req).array()` for the field `path`. -/
def fieldError (path msg : String) : ErrorItem := ⟨msg, some path⟩

/-- Lines 82-83 and 85: the validation result of `POST /login`.  Every chain
holds one validator, which reports `Invalid value` when it fails; `isEmail`
runs on the email as received, before `normalizeEmail`. -/
def loginValidation (L : Lib) (body : LoginBody) : List ErrorItem :=
  (if L.isEmail body.email then [] else [fieldError "email" "Invalid value"])
    ++ (if isLength 6 none body.password then []
        else [fieldError "password" "Invalid value"])

/-- Lines 125-133 and 135: the validation result of `POST /register`, the
errors of the four chains in the order of the chains. -/
def registerValidation (L : Lib) (body : RegisterBody) : List ErrorItem :=
  (if isLength 2 (some 255) (trim body.name) then []
   else [fieldError "name" "Invalid value"])
    ++ (if L.isEmail body.email then [] else [fieldError "email" "Invalid value"])
    ++ (if isLength 6 none body.password then []
        else [fieldError "password" "Invalid value"])
    ++ (if body.confirm_password ≠ body.password then
          [fieldError "confirm_password" "Konfirmasi password tidak cocok"]
        else [])

/-! ## Access guard -/

/-- JavaScript truthiness of `req.session.userId`: `undefined` and the number
`0` are falsy. -/
def truthy : Option Nat → Bool
  | none => false
  | some n => n != 0

/-- What a middleware does with the request: pass it on, or answer it with a
redirect. -/
inductive Guard where
  | next
  | redirect (url : String)
  deriving DecidableEq

/-- Lines 73-78: `requireAuth`, with the session it leaves behind. -/
def requireAuth (sess : Session) : Guard × Session :=
  if truthy sess.userId then (Guard.next, sess)
  else (Guard.redirect "/login", sess)

/-- Lines 68-70: `GET /halaman-utama`, the handler behind `requireAuth`. -/
def getHalamanUtama (sess : Session) : Response × Session :=
  match requireAuth sess with
  | (Guard.next, s) => (Response.renderHome s.userName, s)
  | (Guard.redirect url, s) => (Response.redirect url, s)

/-! ## Authentication handlers -/

/-- The error both failing branches of the login handler render. -/
def loginFailure : Response :=
  Response.renderErrors "login" [⟨"Email atau password salah", none⟩]

/-- Lines 81-121: `POST /login`. -/
def postLogin {σ : Type} (L : Lib) (S : Store σ) (body : LoginBody)
    (sess : Session) (db : σ) : Outcome σ :=
  let errors := loginValidation L body
  if !errors.isEmpty then
    ⟨Response.renderErrors "login" errors, sess, db, [], [], none⟩
  else
    let email := L.normalizeEmail body.email
    let password := body.password
    match S.selectUsersByEmail db email with
    | Except.error err =>
      ⟨Response.renderErrors "login" [⟨"Database error", none⟩], sess, db,
        [Call.selectUser email], ["Database error: " ++ err], none⟩
    | Except.ok results =>
      match results with
      | [] => ⟨loginFailure, sess, db, [Call.selectUser email], [], none⟩
      | user :: _ =>
        let isValidPassword := L.compare password user.password
        if !isValidPassword then
          ⟨loginFailure, sess, db,
            [Call.selectUser email, Call.bcryptCompare password user.password],
            [], none⟩
        else
          ⟨Response.redirect "/halaman-utama",
            { sess with userId := some user.id, userName := some user.name },
            db,
            [Call.selectUser email, Call.bcryptCompare password user.password],
            [], none⟩

/-- Lines 124-173: `POST /register`; `salt` is the salt `bcrypt.hash` draws. -/
def postRegister {σ : Type} (L : Lib) (S : Store σ) (body : RegisterBody)
    (sess : Session) (db : σ) (salt : Nat) : Outcome σ :=
  let errors := registerValidation L body
  if !errors.isEmpty then
    ⟨Response.renderErrors "register" errors, sess, db, [], [], none⟩
  else
    let name := trim body.name
    let email := L.normalizeEmail body.email
    let password := body.password
    match S.selectUsersByEmail db email with
    | Except.error err =>
      ⟨Response.renderErrors "register" [⟨"Database error", none⟩], sess, db,
        [Call.selectUser email], ["Database error: " ++ err], none⟩
    | Except.ok results =>
      if results.length > 0 then
        ⟨Response.renderErrors "register" [⟨"Email sudah terdaftar", none⟩],
          sess, db, [Call.selectUser email], [], none⟩
      else
        let hashedPassword := L.hash password 10 salt
        let calls := [Call.selectUser email, Call.bcryptHash password 10,
          Call.insertUser name email hashedPassword]
        match S.insertUser db name email hashedPassword with
        | Except.error err =>
          ⟨Response.renderErrors "register" [⟨"Gagal mendaftarkan akun", none⟩],
            sess, db, calls, ["Insert error: " ++ err], none⟩
        | Except.ok db2 => ⟨Response.redirect "/login", sess, db2, calls, [], none⟩

/-! ## Classifier handlers -/

/-- Lines 190-217: `POST /check-weight-blood`.  The view is rendered whatever
the `INSERT` does; its callback (lines 211-213) rethrows an error of the
`INSERT`, which nothing catches. -/
def postCheckWeightBlood {σ : Type} (S : Store σ) (body : WeightBloodBody)
    (sess : Session) (db : σ) : Outcome σ :=
  let bmi := bmiOf body.height body.weight
  let weightCategory := weightCategoryOf bmi
  let bloodCategory := bloodCategoryOf body.systolic body.diastolic
  let record : HealthRecord := ⟨body.name, body.age, some body.height,
    some body.weight, some body.systolic, some body.diastolic, none⟩
  let response := Response.renderWeightBlood
    ⟨body.name, bmi, weightCategory, body.systolic, body.diastolic, bloodCategory⟩
  match S.insertHealth db record with
  | Except.error err =>
    ⟨response, sess, db, [Call.insertHealth record], [], some err⟩
  | Except.ok db2 => ⟨response, sess, db2, [Call.insertHealth record], [], none⟩

/-- Lines 224-241: `POST /check-spo2`, with the same `INSERT` callback
(lines 235-237). -/
def postCheckSpo2 {σ : Type} (S : Store σ) (body : Spo2Body)
    (sess : Session) (db : σ) : Outcome σ :=
  let spo2Category := spo2CategoryOf body.spo2
  let record : HealthRecord :=
    ⟨body.name, body.age, none, none, none, none, some body.spo2⟩
  let response := Response.renderSpo2 ⟨body.name, body.spo2, spo2Category⟩
  match S.insertHealth db record with
  | Except.error err =>
    ⟨response, sess, db, [Call.insertHealth record], [], some err⟩
  | Except.ok db2 => ⟨response, sess, db2, [Call.insertHealth record], [], none⟩

/-! ## A table store, a failing store, session lookup -/

/-- Modelled from the spec: the database itself is not part of `index.js`.
State of the store of sections 3 and 6: the `users` table with the last id
it assigned, and the append-only `health_data` table. -/
structure Db where
  users : List User
  lastUserId : Nat
  health : List HealthRecord

/-- Modelled from the spec: a store that behaves as a faithful map.  A
`SELECT ... WHERE email = ?` returns the rows whose email is the given one, in
table order; an `INSERT` into `users` appends the row under the next id
(store-assigned, counted from 1); an `INSERT` into `health_data` appends the
record.  No statement fails. -/
def tableStore : Store Db where
  selectUsersByEmail db email :=
    Except.ok (db.users.filter (fun u => u.email == email))
  insertUser db name email hash :=
    Except.ok { db with
      users := db.users ++ [⟨db.lastUserId + 1, name, email, hash⟩],
      lastUserId := db.lastUserId + 1 }
  insertHealth db r := Except.ok { db with health := db.health ++ [r] }

/-- The `bmi` local of a rendered `result-weight-blood`. -/
def Response.bmi : Response → Option JsNum
  | Response.renderWeightBlood r => some r.bmi
  | _ => none

/-- The `weightCategory` local of a rendered `result-weight-blood`. -/
def Response.weightCategory : Response → Option String
  | Response.renderWeightBlood r => some r.weightCategory
  | _ => none

/-- The `bloodCategory` local of a rendered `result-weight-blood`. -/
def Response.bloodCategory : Response → Option String
  | Response.renderWeightBlood r => some r.bloodCategory
  | _ => none

/-- The `spo2Category` local of a rendered `result-spo2`. -/
def Response.spo2Category : Response → Option String
  | Response.renderSpo2 r => some r.spo2Category
  | _ => none

/-! ## The band tables of the specification -/

/-- First match wins: the label of the first rule whose condition holds, and
`dflt` when none does. -/
def firstMatch : List (Bool × String) → String → String
  | [], dflt => dflt
  | (cond, label) :: rest, dflt => if cond then label else firstMatch rest dflt

/-- Section 4.5, `bloodCategory`: the rules 1 to 3 in their order. -/
def bloodRules (systolic diastolic : ℚ) : List (Bool × String) :=
  [(decide (systolic < 120 ∧ diastolic < 80), "Normal"),
   (decide (systolic < 130 ∧ diastolic < 80), "Elevated"),
   (decide (systolic < 140 ∨ diastolic < 90), "High Blood Pressure Stage 1")]

/-- A stand-in for the libraries, used to run the handlers on examples: an
email is valid when it holds an `@`, normalization lowercases, and a hash is
the salt and the password behind a marker. -/
def demoLib : Lib where
  isEmail s := s.toList.contains (Char.ofNat 64)
  normalizeEmail s := String.mk (s.toList.map Char.toLower)
  hash p _ salt := "$2b$10$" ++ String.mk (Nat.toDigits 10 salt) ++ "$" ++ p
  compare p h := (String.mk (h.toList.reverse.take p.length).reverse == p)
    && h.toList.take 7 == "$2b$10$".toList

/-! ## Sample requests and store states -/

/-- An empty database. -/
def emptyDb : Db := ⟨[], 0, []⟩

/-- A users table holding one account, registered as `alice@example.com`
with the password `rahasia1`. -/
def aliceDb : Db :=
  ⟨[⟨1, "Alice", "alice@example.com", "$2b$10$7$rahasia1"⟩], 1, []⟩

theorem postCheckWeightBlood_response {σ : Type} (S : Store σ)
    (body : WeightBloodBody) (sess : Session) (db : σ) :
    (postCheckWeightBlood S body sess db).response
      = Response.renderWeightBlood
          ⟨body.name, bmiOf body.height body.weight,
            weightCategoryOf (bmiOf body.height body.weight),
            body.systolic, body.diastolic,
            bloodCategoryOf body.systolic body.diastolic⟩ := by
  unfold postCheckWeightBlood
  dsimp only
  split <;> rfl

theorem postCheckSpo2_response {σ : Type} (S : Store σ) (body : Spo2Body)
    (sess : Session) (db : σ) :
    (postCheckSpo2 S body sess db).response
      = Response.renderSpo2 ⟨body.name, body.spo2, spo2CategoryOf body.spo2⟩ := by
  unfold postCheckSpo2
  dsimp only
  split <;> rfl

/-- C5: for every numeric systolic and diastolic, the blood category that
`POST /check-weight-blood` renders is decided by first match in the order
systolic<120 and diastolic<80 (Normal), systolic<130 and diastolic<80
(Elevated), systolic<140 or diastolic<90 (Stage 1), otherwise Stage 2; in
particular (110, 70) gives Normal and (135, 85) gives Stage 1. -/
theorem C5_blood_category_first_match {σ : Type} (S : Store σ)
    (body : WeightBloodBody) (sess : Session) (db : σ) :
    (postCheckWeightBlood S body sess db).response.bloodCategory
        = some (firstMatch (bloodRules body.systolic body.diastolic)
            "High Blood Pressure Stage 2")
      ∧ (postCheckWeightBlood S { body with systolic := 110, diastolic := 70 }
          sess db).response.bloodCategory = some "Normal"
      ∧ (postCheckWeightBlood S { body with systolic := 135, diastolic := 85 }
          sess db).response.bloodCategory
          = some "High Blood Pressure Stage 1" := by
  refine ⟨?_, ?_, ?_⟩
  · rw [postCheckWeightBlood_response]
    simp only [Response.bloodCategory, bloodCategoryOf, firstMatch, bloodRules,
      Bool.decide_and, Bool.decide_or]
  · rw [postCheckWeightBlood_response]
    simp only [Response.bloodCategory, bloodCategoryOf]
    norm_num
  · rw [postCheckWeightBlood_response]
    simp only [Response.bloodCategory, bloodCategoryOf]
    norm_num

/-- C10: for every numeric systolic and diastolic the rendered blood category
is Stage 2 if and only if systolic>=140 and diastolic>=90; (200, 85) and
(135, 120), each above one Stage 2 threshold, are Stage 1; and the four bands
partition the inputs: the category is one of the four labels, each label
being given on its own region. -/
theorem C10_stage2_iff_both_thresholds {σ : Type} (S : Store σ)
    (body : WeightBloodBody) (sess : Session) (db : σ) :
    ((postCheckWeightBlood S body sess db).response.bloodCategory
          = some "High Blood Pressure Stage 2"
        ↔ body.systolic ≥ 140 ∧ body.diastolic ≥ 90)
      ∧ (postCheckWeightBlood S { body with systolic := 200, diastolic := 85 }
          sess db).response.bloodCategory
          = some "High Blood Pressure Stage 1"
      ∧ (postCheckWeightBlood S { body with systolic := 135, diastolic := 120 }
          sess db).response.bloodCategory
          = some "High Blood Pressure Stage 1"
      ∧ ((postCheckWeightBlood S body sess db).response.bloodCategory
            = some "Normal"
          ↔ body.systolic < 120 ∧ body.diastolic < 80)
      ∧ ((postCheckWeightBlood S body sess db).response.bloodCategory
            = some "Elevated"
          ↔ 120 ≤ body.systolic ∧ body.systolic < 130 ∧ body.diastolic < 80)
      ∧ ((postCheckWeightBlood S body sess db).response.bloodCategory
            = some "High Blood Pressure Stage 1"
          ↔ (130 ≤ body.systolic ∨ 80 ≤ body.diastolic)
            ∧ (body.systolic < 140 ∨ body.diastolic < 90))
      ∧ ((postCheckWeightBlood S body sess db).response.bloodCategory
            = some "Normal"
          ∨ (postCheckWeightBlood S body sess db).response.bloodCategory
            = some "Elevated"
          ∨ (postCheckWeightBlood S body sess db).response.bloodCategory
            = some "High Blood Pressure Stage 1"
          ∨ (postCheckWeightBlood S body sess db).response.bloodCategory
            = some "High Blood Pressure Stage 2") := by
  rw [postCheckWeightBlood_response, postCheckWeightBlood_response,
    postCheckWeightBlood_response]
  simp only [Response.bloodCategory, bloodCategoryOf, Bool.and_eq_true,
    Bool.or_eq_true, decide_eq_true_eq, Option.some.injEq]
  refine ⟨?_, ?_, ?_, ?_, ?_, ?_, ?_⟩
  rotate_right
  · split_ifs <;> simp
  · split_ifs with h1 h2 h3
    · simp only [ge_iff_le]; constructor
      · intro h; exact absurd h (by decide)
      · intro h; linarith [h1.1, h.1]
    · simp only [ge_iff_le]; constructor
      · intro h; exact absurd h (by decide)
      · intro h; linarith [h2.1, h.1]
    · simp only [ge_iff_le]; constructor
      · intro h; exact absurd h (by decide)
      · intro h; rcases h3 with h3 | h3
        · linarith [h.1]
        · linarith [h.2]
    · simp only [ge_iff_le, true_iff]
      push_neg at h3
      exact h3
  · norm_num
  · norm_num
  · split_ifs with h1 h2 h3
    · simp only [true_iff]; exact h1
    · constructor
      · intro h; exact absurd h (by decide)
      · intro h; exact absurd h h1
    · constructor
      · intro h; exact absurd h (by decide)
      · intro h; exact absurd h h1
    · constructor
      · intro h; exact absurd h (by decide)
      · intro h; exact absurd h h1
  · split_ifs with h1 h2 h3
    · constructor
      · intro h; exact absurd h (by decide)
      · intro h; linarith [h1.1, h.1]
    · simp only [true_iff]
      refine ⟨?_, h2.1, h2.2⟩
      by_contra hc
      exact h1 ⟨lt_of_not_le hc, h2.2⟩
    · constructor
      · intro h; exact absurd h (by decide)
      · intro h; exact absurd ⟨h.2.1, h.2.2⟩ h2
    · constructor
      · intro h; exact absurd h (by decide)
      · intro h; exact absurd ⟨h.2.1, h.2.2⟩ h2
  · split_ifs with h1 h2 h3
    · constructor
      · intro h; exact absurd h (by decide)
      · intro h; rcases h.1 with h4 | h4
        · linarith [h1.1]
        · linarith [h1.2]
    · constructor
      · intro h; exact absurd h (by decide)
      · intro h; rcases h.1 with h4 | h4
        · linarith [h2.1]
        · linarith [h2.2]
    · simp only [true_iff]
      refine ⟨?_, h3⟩
      by_contra hc
      push_neg at hc
      exact h2 ⟨hc.1, hc.2⟩
    · constructor
      · intro h; exact absurd h (by decide)
      · intro h; exact absurd h.2 h3

/-- C7: for every numeric spo2, `POST /check-spo2` renders Normal exactly when
spo2>=95, Low exactly when 90<=spo2<95 and Very Low exactly when spo2<90, so
the three bands are exhaustive and mutually exclusive; 96 gives Normal, 92
gives Low and 85 gives Very Low. -/
theorem C7_spo2_bands {σ : Type} (S : Store σ) (body : Spo2Body)
    (sess : Session) (db : σ) :
    ((postCheckSpo2 S body sess db).response.spo2Category = some "Normal"
        ↔ body.spo2 ≥ 95)
      ∧ ((postCheckSpo2 S body sess db).response.spo2Category
            = some "Low (Perlu perhatian)"
          ↔ 90 ≤ body.spo2 ∧ body.spo2 < 95)
      ∧ ((postCheckSpo2 S body sess db).response.spo2Category
            = some "Very Low (Segera konsultasi dokter)"
          ↔ body.spo2 < 90)
      ∧ (postCheckSpo2 S { body with spo2 := 96 } sess db).response.spo2Category
          = some "Normal"
      ∧ (postCheckSpo2 S { body with spo2 := 92 } sess db).response.spo2Category
          = some "Low (Perlu perhatian)"
      ∧ (postCheckSpo2 S { body with spo2 := 85 } sess db).response.spo2Category
          = some "Very Low (Segera konsultasi dokter)" := by
  rw [postCheckSpo2_response, postCheckSpo2_response, postCheckSpo2_response,
    postCheckSpo2_response]
  simp only [Response.spo2Category, spo2CategoryOf, Option.some.injEq, ge_iff_le]
  refine ⟨?_, ?_, ?_, ?_, ?_, ?_⟩
  · split_ifs with h1 h2
    · simp only [true_iff]; exact h1
    · constructor
      · intro h; exact absurd h (by decide)
      · intro h; exact absurd h h1
    · constructor
      · intro h; exact absurd h (by decide)
      · intro h; exact absurd h h1
  · split_ifs with h1 h2
    · constructor
      · intro h; exact absurd h (by decide)
      · intro h; linarith [h.2]
    · simp only [true_iff]; exact ⟨h2, lt_of_not_le h1⟩
    · constructor
      · intro h; exact absurd h (by decide)
      · intro h; exact absurd h.1 h2
  · split_ifs with h1 h2
    · constructor
      · intro h; exact absurd h (by decide)
      · intro h; linarith
    · constructor
      · intro h; exact absurd h (by decide)
      · intro h; linarith
    · simp only [true_iff]; exact lt_of_not_le h2
  · norm_num
  · norm_num
  · norm_num

theorem isLength_min (n : Nat) (s : String) :
    isLength n none s = true ↔ n ≤ s.length := by
  simp [isLength]

theorem isLength_range (n m : Nat) (s : String) :
    isLength n (some m) s = true ↔ n ≤ s.length ∧ s.length ≤ m := by
  simp [isLength]

theorem registerValidation_nil_iff (L : Lib) (body : RegisterBody) :
    registerValidation L body = []
      ↔ (2 ≤ (trim body.name).length ∧ (trim body.name).length ≤ 255)
        ∧ L.isEmail body.email = true
        ∧ 6 ≤ body.password.length
        ∧ body.confirm_password = body.password := by
  unfold registerValidation
  rw [← isLength_range, ← isLength_min]
  by_cases h1 : isLength 2 (some 255) (trim body.name) = true <;>
  by_cases h2 : L.isEmail body.email = true <;>
  by_cases h3 : isLength 6 none body.password = true <;>
  by_cases h4 : body.confirm_password = body.password <;>
  simp [h1, h2, h3, h4]

theorem loginValidation_nil_iff (L : Lib) (body : LoginBody) :
    loginValidation L body = []
      ↔ L.isEmail body.email = true ∧ 6 ≤ body.password.length := by
  unfold loginValidation
  rw [← isLength_min]
  by_cases h2 : L.isEmail body.email = true <;>
  by_cases h3 : isLength 6 none body.password = true <;>
  simp [h2, h3]

theorem postLogin_unknown_email {σ : Type} (L : Lib) (S : Store σ)
    (body : LoginBody) (sess : Session) (db : σ)
    (hv : loginValidation L body = [])
    (h : S.selectUsersByEmail db (L.normalizeEmail body.email) = Except.ok []) :
    postLogin L S body sess db
      = ⟨loginFailure, sess, db, [Call.selectUser (L.normalizeEmail body.email)],
          [], none⟩ := by
  unfold postLogin
  simp [hv, h]

theorem postLogin_wrong_password {σ : Type} (L : Lib) (S : Store σ)
    (body : LoginBody) (sess : Session) (db : σ) (user : User) (rest : List User)
    (hv : loginValidation L body = [])
    (h : S.selectUsersByEmail db (L.normalizeEmail body.email)
      = Except.ok (user :: rest))
    (hpw : L.compare body.password user.password = false) :
    postLogin L S body sess db
      = ⟨loginFailure, sess, db,
          [Call.selectUser (L.normalizeEmail body.email),
            Call.bcryptCompare body.password user.password], [], none⟩ := by
  unfold postLogin
  simp [hv, h, hpw]

theorem postLogin_success {σ : Type} (L : Lib) (S : Store σ)
    (body : LoginBody) (sess : Session) (db : σ) (user : User) (rest : List User)
    (hv : loginValidation L body = [])
    (h : S.selectUsersByEmail db (L.normalizeEmail body.email)
      = Except.ok (user :: rest))
    (hpw : L.compare body.password user.password = true) :
    postLogin L S body sess db
      = ⟨Response.redirect "/halaman-utama",
          { sess with userId := some user.id, userName := some user.name }, db,
          [Call.selectUser (L.normalizeEmail body.email),
            Call.bcryptCompare body.password user.password], [], none⟩ := by
  unfold postLogin
  simp [hv, h, hpw]

/-- C1: for login requests that pass validation, the outcome of `POST /login`
is the same when (a) the store returns no user for the email and when (b) it
returns a user whose password verification is false: the same view with the
single error `Email atau password salah`, and the session left as it came in,
so that no userId is set by either. -/
theorem C1_login_failures_indistinguishable {σ : Type} (L : Lib)
    (SA SB : Store σ) (bodyA bodyB : LoginBody) (sess : Session) (dbA dbB : σ)
    (user : User) (rest : List User)
    (hvA : loginValidation L bodyA = [])
    (hvB : loginValidation L bodyB = [])
    (hA : SA.selectUsersByEmail dbA (L.normalizeEmail bodyA.email) = Except.ok [])
    (hB : SB.selectUsersByEmail dbB (L.normalizeEmail bodyB.email)
      = Except.ok (user :: rest))
    (hpw : L.compare bodyB.password user.password = false) :
    (postLogin L SA bodyA sess dbA).response
        = (postLogin L SB bodyB sess dbB).response
      ∧ (postLogin L SA bodyA sess dbA).session
        = (postLogin L SB bodyB sess dbB).session
      ∧ (postLogin L SA bodyA sess dbA).response
        = Response.renderErrors "login" [⟨"Email atau password salah", none⟩]
      ∧ (postLogin L SB bodyB sess dbB).response
        = Response.renderErrors "login" [⟨"Email atau password salah", none⟩]
      ∧ (postLogin L SA bodyA sess dbA).session = sess
      ∧ (postLogin L SB bodyB sess dbB).session = sess := by
  rw [postLogin_unknown_email L SA bodyA sess dbA hvA hA,
    postLogin_wrong_password L SB bodyB sess dbB user rest hvB hB hpw]
  exact ⟨rfl, rfl, rfl, rfl, rfl, rfl⟩

/-- Witness for C1: an unknown email against an empty users table, and a
wrong password for the account of `aliceDb`, both from a request that is not
logged in; neither sets a userId. -/
theorem C1_login_failures_indistinguishable_witness :
    (postLogin demoLib tableStore ⟨"bob@example.com", "rahasia1"⟩ Session.empty
        emptyDb).response
      = (postLogin demoLib tableStore ⟨"Alice@Example.com", "salah-1"⟩
          Session.empty aliceDb).response
    ∧ (postLogin demoLib tableStore ⟨"Alice@Example.com", "salah-1"⟩
          Session.empty aliceDb).response
      = Response.renderErrors "login" [⟨"Email atau password salah", none⟩]
    ∧ (postLogin demoLib tableStore ⟨"bob@example.com", "rahasia1"⟩ Session.empty
        emptyDb).session.userId = none
    ∧ (postLogin demoLib tableStore ⟨"Alice@Example.com", "salah-1"⟩
          Session.empty aliceDb).session.userId = none := by
  have h := C1_login_failures_indistinguishable demoLib tableStore tableStore
    ⟨"bob@example.com", "rahasia1"⟩ ⟨"Alice@Example.com", "salah-1"⟩
    Session.empty emptyDb aliceDb
    ⟨1, "Alice", "alice@example.com", "$2b$10$7$rahasia1"⟩ []
    (by decide) (by decide) (by rfl) (by rfl) (by decide)
  refine ⟨h.1, h.2.2.2.1, ?_, ?_⟩
  · rw [h.2.2.2.2.1]; rfl
  · rw [h.2.2.2.2.2]; rfl

/-! ## Registration -/

theorem postRegister_fresh {σ : Type} (L : Lib) (S : Store σ)
    (body : RegisterBody) (sess : Session) (db db2 : σ) (salt : Nat)
    (hv : registerValidation L body = [])
    (h : S.selectUsersByEmail db (L.normalizeEmail body.email) = Except.ok [])
    (hi : S.insertUser db (trim body.name) (L.normalizeEmail body.email)
      (L.hash body.password 10 salt) = Except.ok db2) :
    postRegister L S body sess db salt
      = ⟨Response.redirect "/login", sess, db2,
          [Call.selectUser (L.normalizeEmail body.email),
            Call.bcryptHash body.password 10,
            Call.insertUser (trim body.name) (L.normalizeEmail body.email)
              (L.hash body.password 10 salt)], [], none⟩ := by
  unfold postRegister
  simp [hv, h, hi]

theorem filter_email_of_fresh (users : List User) (email : String)
    (h : ∀ u ∈ users, u.email ≠ email) :
    users.filter (fun u => u.email == email) = [] := by
  rw [List.filter_eq_nil_iff]
  intro u hu
  simp [h u hu]

/-- C3: for every request that passes the validation of `POST /register` and
every store state in which its normalized email is not yet registered, with
the store a faithful map and `compare(p, hash(p))` true: the registration
redirects to the login form having appended one user row, and a login with
the same email and password then succeeds, with a session whose userId is the
id of that row and whose userName is its name, so that `requireAuth` lets the
request through and the protected page is rendered. -/
theorem C3_register_then_login (L : Lib) (body : RegisterBody)
    (sess sess2 : Session) (db : Db) (salt : Nat)
    (hverify : L.compare body.password (L.hash body.password 10 salt) = true)
    (hv : registerValidation L body = [])
    (hfresh : ∀ u ∈ db.users, u.email ≠ L.normalizeEmail body.email) :
    (postRegister L tableStore body sess db salt).response
        = Response.redirect "/login"
      ∧ ∃ newUser : User,
        (postRegister L tableStore body sess db salt).db.users
            = db.users ++ [newUser]
        ∧ newUser.name = trim body.name
        ∧ newUser.email = L.normalizeEmail body.email
        ∧ (postLogin L tableStore ⟨body.email, body.password⟩ sess2
            (postRegister L tableStore body sess db salt).db).response
            = Response.redirect "/halaman-utama"
        ∧ (postLogin L tableStore ⟨body.email, body.password⟩ sess2
            (postRegister L tableStore body sess db salt).db).session.userId
            = some newUser.id
        ∧ (postLogin L tableStore ⟨body.email, body.password⟩ sess2
            (postRegister L tableStore body sess db salt).db).session.userName
            = some newUser.name
        ∧ (requireAuth (postLogin L tableStore ⟨body.email, body.password⟩ sess2
            (postRegister L tableStore body sess db salt).db).session).1
            = Guard.next
        ∧ (getHalamanUtama (postLogin L tableStore ⟨body.email, body.password⟩
            sess2 (postRegister L tableStore body sess db salt).db).session).1
            = Response.renderHome (some newUser.name) := by
  have hf := filter_email_of_fresh db.users _ hfresh
  have hs : tableStore.selectUsersByEmail db (L.normalizeEmail body.email)
      = Except.ok [] := by
    simp only [tableStore, hf]
  have hreg := postRegister_fresh L tableStore body sess db
    { db with
      users := db.users ++ [⟨db.lastUserId + 1, trim body.name,
        L.normalizeEmail body.email, L.hash body.password 10 salt⟩],
      lastUserId := db.lastUserId + 1 } salt hv hs rfl
  have hok := (registerValidation_nil_iff L body).1 hv
  have hvl : loginValidation L ⟨body.email, body.password⟩ = [] :=
    (loginValidation_nil_iff L ⟨body.email, body.password⟩).2
      ⟨hok.2.1, hok.2.2.1⟩
  rw [hreg]
  refine ⟨rfl, ⟨db.lastUserId + 1, trim body.name, L.normalizeEmail body.email,
    L.hash body.password 10 salt⟩, rfl, rfl, rfl, ?_⟩
  have hsel : tableStore.selectUsersByEmail
      { db with
        users := db.users ++ [⟨db.lastUserId + 1, trim body.name,
          L.normalizeEmail body.email, L.hash body.password 10 salt⟩],
        lastUserId := db.lastUserId + 1 }
      (L.normalizeEmail (⟨body.email, body.password⟩ : LoginBody).email)
      = Except.ok [⟨db.lastUserId + 1, trim body.name,
          L.normalizeEmail body.email, L.hash body.password 10 salt⟩] := by
    simp only [tableStore, List.filter_append, hf, List.nil_append]
    simp
  rw [postLogin_success L tableStore ⟨body.email, body.password⟩ sess2 _
    ⟨db.lastUserId + 1, trim body.name, L.normalizeEmail body.email,
      L.hash body.password 10 salt⟩ [] hvl hsel hverify]
  refine ⟨rfl, rfl, rfl, ?_, ?_⟩
  · simp [requireAuth, truthy]
  · simp [getHalamanUtama, requireAuth, truthy]

/-- Witness for C3: Bob registers with an empty users table and logs in. -/
theorem C3_register_then_login_witness :
    (postRegister demoLib tableStore
        ⟨" Bob ", "Bob@Example.com", "rahasia9", "rahasia9"⟩ Session.empty
        emptyDb 5).response = Response.redirect "/login"
    ∧ ∃ newUser : User,
        (postRegister demoLib tableStore
          ⟨" Bob ", "Bob@Example.com", "rahasia9", "rahasia9"⟩ Session.empty
          emptyDb 5).db.users = emptyDb.users ++ [newUser]
        ∧ (postLogin demoLib tableStore ⟨"Bob@Example.com", "rahasia9"⟩
            Session.empty
            (postRegister demoLib tableStore
              ⟨" Bob ", "Bob@Example.com", "rahasia9", "rahasia9"⟩ Session.empty
              emptyDb 5).db).session.userId = some newUser.id
        ∧ (requireAuth (postLogin demoLib tableStore
            ⟨"Bob@Example.com", "rahasia9"⟩ Session.empty
            (postRegister demoLib tableStore
              ⟨" Bob ", "Bob@Example.com", "rahasia9", "rahasia9"⟩ Session.empty
              emptyDb 5).db).session).1 = Guard.next := by
  have h := C3_register_then_login demoLib
    ⟨" Bob ", "Bob@Example.com", "rahasia9", "rahasia9"⟩ Session.empty
    Session.empty emptyDb 5 (by decide) (by decide) (by decide)
  obtain ⟨h1, u, h2, _, _, _, h3, _, h4, _⟩ := h
  exact ⟨h1, u, h2, h3, h4⟩

/-! ## Access guard -/

end WebBd
